import Mathlib

/-!
Verification of the MIMICA pose pipeline (mapper, smoother, IK solver,
action recognizer) against its natural-language specification.

The smoother and coordinate mapper are embedded over the rationals, with an
explicit model of the JavaScript value space for a landmark slot: a slot is
either the JS value `null` (absence) or an object whose `x`/`y` fields are
either a finite number or missing/non-finite (`undefined`/`NaN`, modelled as
`none`).  Object spread over `null` (`{...null}`) yields an empty object, as
in JavaScript.
-/

namespace Mimica

/-- One landmark slot as the JavaScript code can actually hold it:
`null`, or an object with optional numeric fields `x` and `y`
(a field is `none` when it is `undefined`/`NaN`). -/
inductive JVal where
  | null : JVal
  | obj (x y : Option ℚ) : JVal
deriving DecidableEq

/-- `PoseMapper.lerp(a, b, t) = a + (b - a) * t` (mapper.js line 150). -/
def lerp (a b t : ℚ) : ℚ := a + (b - a) * t

/-- `lerp` lifted to optional (possibly `undefined`/`NaN`) operands:
arithmetic on a missing operand produces `NaN`, i.e. `none`. -/
def jlerp : Option ℚ → Option ℚ → ℚ → Option ℚ
  | some a, some b, t => some (lerp a b t)
  | _, _, _ => none

/-- JavaScript object spread `{...p}`: spreading `null` yields an empty
object (both fields missing); spreading an object copies its fields. -/
def spreadCopy : JVal → JVal
  | .null => .obj none none
  | .obj x y => .obj x y

/-- `PoseMapper.lerpPoint(p1, p2, t)` (mapper.js lines 153-160):
if `!p1` return `{...p2}`; if `!p2` return `{...p1}`; otherwise blend the
`x` and `y` fields with `lerp`. -/
def lerpPoint (p1 p2 : JVal) (t : ℚ) : JVal :=
  match p1 with
  | .null => spreadCopy p2
  | .obj x1 y1 =>
    match p2 with
    | .null => .obj x1 y1
    | .obj x2 y2 => .obj (jlerp x1 x2 t) (jlerp y1 y2 t)

/-- The defensive copy `p => (p ? { ...p } : null)` used when the smoother
stores its first frame (smoother.js line 20). -/
def copyPoint : JVal → JVal
  | .null => .null
  | .obj x y => .obj x y

/-- State of `Smoother` (smoother.js lines 8-12): a blend factor and the
stored previous frame (`null` before the first call). -/
structure Smoother where
  alpha : ℚ
  previousPoints : Option (List JVal)
deriving DecidableEq

/-- `new Smoother(alpha)` (smoother.js lines 9-12): stores `alpha` as given
(no clamping in the constructor) and no previous frame. -/
def Smoother.init (alpha : ℚ) : Smoother := ⟨alpha, none⟩

/-- `Smoother.setAlpha(alpha) { this.alpha = Math.max(0, Math.min(1, alpha)) }`
(smoother.js lines 14-16). -/
def setAlpha (s : Smoother) (a : ℚ) : Smoother := { s with alpha := max 0 (min 1 a) }

/-- The body of `currentPoints.map((currentPoint, i) =>
lerpPoint(this.previousPoints[i], currentPoint, this.alpha))`
(smoother.js lines 24-27), written as index-carrying recursion; reading
`previousPoints[i]` past the end gives `undefined`, which the `!p1` guard
in `lerpPoint` treats like `null`. -/
def blendPoints (alpha : ℚ) (prev : List JVal) : ℕ → List JVal → List JVal
  | _, [] => []
  | i, c :: cs => lerpPoint (prev.getD i .null) c alpha :: blendPoints alpha prev (i + 1) cs

/-- `Smoother.smooth(currentPoints)` (smoother.js lines 18-31), as explicit
state passing: returns the output frame together with the updated smoother. -/
def smooth (s : Smoother) (current : List JVal) : List JVal × Smoother :=
  match s.previousPoints with
  | none => (current, { s with previousPoints := some (current.map copyPoint) })
  | some prev =>
    let sm := blendPoints s.alpha prev 0 current
    (sm, { s with previousPoints := some sm })

/-- `PoseMapper.landmarksToPoints(landmarks, width, height, mirror)`
(mapper.js lines 30-44): absent landmarks map to `null`; present ones map to
`{x: lm.x * width, y: lm.y * height}`, with `x` replaced by `width - x`
when mirroring. -/
def landmarksToPoints (landmarks : List (Option (ℚ × ℚ))) (width height : ℚ)
    (mirror : Bool) : List (Option (ℚ × ℚ)) :=
  landmarks.map fun landmark =>
    match landmark with
    | none => none
    | some lm =>
      let x := lm.1 * width
      let y := lm.2 * height
      some (if mirror then width - x else x, y)

/-! ## Action recognizer

The two rulesets of `ActionRecognizer.recognize`: the rich ~37-action version
(action-recognizer.js) and the minimal 8-landmark version (the unnamed source
file).  Geometry is over the reals; `Math.hypot` is the Euclidean norm.
Classification inputs are proper points-or-null, so a slot is `Option Pt`. -/

/-- A pixel-space point `{x, y}`. -/
abbrev Pt := ℝ × ℝ

/-- `Math.hypot(x, y)`. -/
noncomputable def hypot (x y : ℝ) : ℝ := Real.sqrt (x ^ 2 + y ^ 2)

/-- `ActionRecognizer.getPoint(pose, index)`: `null` for a null pose, an
out-of-range index, or a null slot. -/
def getPoint (pose : Option (List (Option Pt))) (index : ℕ) : Option Pt :=
  match pose with
  | none => none
  | some l => l.getD index none

/-- The helper `arePointsCollinear(p1, p2, p3, threshold)` of
action-recognizer.js lines 52-58 (its null guard is dead at every call site,
which pass the checked required points). -/
noncomputable def arePointsCollinear (p1 p2 p3 : Pt) (threshold : ℝ) : Prop :=
  let dist12 := hypot (p1.1 - p2.1) (p1.2 - p2.2)
  let dist23 := hypot (p2.1 - p3.1) (p2.2 - p3.2)
  let dist13 := hypot (p1.1 - p3.1) (p1.2 - p3.2)
  |dist13 - (dist12 + dist23)| < threshold

/-- The 13 landmarks the rich ruleset requires (action-recognizer.js
lines 29-44). -/
structure Keypoints where
  nose : Pt
  leftShoulder : Pt
  rightShoulder : Pt
  leftElbow : Pt
  rightElbow : Pt
  leftWrist : Pt
  rightWrist : Pt
  leftHip : Pt
  rightHip : Pt
  leftKnee : Pt
  rightKnee : Pt
  leftAnkle : Pt
  rightAnkle : Pt

noncomputable def shoulderMidpoint (k : Keypoints) : Pt :=
  ((k.leftShoulder.1 + k.rightShoulder.1) / 2, (k.leftShoulder.2 + k.rightShoulder.2) / 2)

noncomputable def hipMidpoint (k : Keypoints) : Pt :=
  ((k.leftHip.1 + k.rightHip.1) / 2, (k.leftHip.2 + k.rightHip.2) / 2)

noncomputable def wristDistance (k : Keypoints) : ℝ :=
  hypot (k.leftWrist.1 - k.rightWrist.1) (k.leftWrist.2 - k.rightWrist.2)

noncomputable def shoulderToHipDist (k : Keypoints) : ℝ :=
  hypot ((shoulderMidpoint k).1 - (hipMidpoint k).1)
    ((shoulderMidpoint k).2 - (hipMidpoint k).2)

noncomputable def isTPose (k : Keypoints) : Prop :=
  arePointsCollinear k.leftShoulder k.leftElbow k.leftWrist 25 ∧
  arePointsCollinear k.rightShoulder k.rightElbow k.rightWrist 25 ∧
  |k.leftShoulder.2 - k.leftElbow.2| < 30 ∧ |k.rightShoulder.2 - k.rightElbow.2| < 30

noncomputable def isCrossedArms (k : Keypoints) : Prop :=
  hypot (k.leftWrist.1 - k.rightElbow.1) (k.leftWrist.2 - k.rightElbow.2) < 100 ∧
  hypot (k.rightWrist.1 - k.leftElbow.1) (k.rightWrist.2 - k.leftElbow.2) < 100

def isVictoryPose (k : Keypoints) : Prop :=
  k.leftWrist.2 < k.leftShoulder.2 ∧ k.rightWrist.2 < k.rightShoulder.2 ∧
  k.leftWrist.1 < k.leftShoulder.1 ∧ k.rightWrist.1 > k.rightShoulder.1

def isHandsUp (k : Keypoints) : Prop :=
  k.leftWrist.2 < k.leftShoulder.2 ∧ k.rightWrist.2 < k.rightShoulder.2

def isWavingRight (k : Keypoints) : Prop :=
  k.rightWrist.2 < k.rightElbow.2 ∧ |k.rightElbow.2 - k.rightShoulder.2| < 50

def isWavingLeft (k : Keypoints) : Prop :=
  k.leftWrist.2 < k.leftElbow.2 ∧ |k.leftElbow.2 - k.leftShoulder.2| < 50

noncomputable def isPunchingRight (k : Keypoints) : Prop :=
  arePointsCollinear k.rightShoulder k.rightElbow k.rightWrist 25 ∧
  |k.rightShoulder.2 - k.rightWrist.2| < 40

noncomputable def isPunchingLeft (k : Keypoints) : Prop :=
  arePointsCollinear k.leftShoulder k.leftElbow k.leftWrist 25 ∧
  |k.leftShoulder.2 - k.leftWrist.2| < 40

noncomputable def isPointingRight (k : Keypoints) : Prop :=
  arePointsCollinear k.rightShoulder k.rightElbow k.rightWrist 25 ∧
  k.rightWrist.2 < k.rightHip.2 + 100

noncomputable def isPointingLeft (k : Keypoints) : Prop :=
  arePointsCollinear k.leftShoulder k.leftElbow k.leftWrist 25 ∧
  k.leftWrist.2 < k.leftHip.2 + 100

noncomputable def isClapping (k : Keypoints) : Prop :=
  wristDistance k < 80 ∧ k.leftWrist.2 > (shoulderMidpoint k).2 ∧
  k.rightWrist.2 > (shoulderMidpoint k).2

def isThumbsUpRight (k : Keypoints) : Prop :=
  k.rightWrist.2 < k.rightElbow.2 ∧ k.rightElbow.2 > k.rightShoulder.2

def isThumbsUpLeft (k : Keypoints) : Prop :=
  k.leftWrist.2 < k.leftElbow.2 ∧ k.leftElbow.2 > k.leftShoulder.2

noncomputable def isDrinkingRight (k : Keypoints) : Prop :=
  hypot (k.rightWrist.1 - k.nose.1) (k.rightWrist.2 - k.nose.2) < 60 ∧
  k.nose.2 < k.rightShoulder.2

noncomputable def isDrinkingLeft (k : Keypoints) : Prop :=
  hypot (k.leftWrist.1 - k.nose.1) (k.leftWrist.2 - k.nose.2) < 60 ∧
  k.nose.2 < k.leftShoulder.2

noncomputable def isBrushingTeethRight (k : Keypoints) : Prop :=
  hypot (k.rightWrist.1 - k.nose.1) (k.rightWrist.2 - k.nose.2) < 80

noncomputable def isBrushingTeethLeft (k : Keypoints) : Prop :=
  hypot (k.leftWrist.1 - k.nose.1) (k.leftWrist.2 - k.nose.2) < 80

def isCombingHairRight (k : Keypoints) : Prop := k.rightWrist.2 < k.nose.2

def isCombingHairLeft (k : Keypoints) : Prop := k.leftWrist.2 < k.nose.2

noncomputable def isTyping (k : Keypoints) : Prop :=
  wristDistance k < 150 ∧ |k.leftWrist.2 - (hipMidpoint k).2| < 100 ∧
  |k.rightWrist.2 - (hipMidpoint k).2| < 100

noncomputable def isReadingBook (k : Keypoints) : Prop :=
  wristDistance k < 120 ∧ k.leftWrist.2 > (shoulderMidpoint k).2 ∧
  k.leftWrist.2 < (hipMidpoint k).2 ∧ k.nose.2 > (shoulderMidpoint k).2

noncomputable def isDownwardDog (k : Keypoints) : Prop :=
  (hipMidpoint k).2 < (shoulderMidpoint k).2 ∧
  (shoulderMidpoint k).2 < k.leftAnkle.2 ∧ (shoulderMidpoint k).2 < k.rightAnkle.2 ∧
  arePointsCollinear k.leftWrist k.leftElbow k.leftShoulder 25 ∧
  arePointsCollinear k.leftAnkle k.leftKnee k.leftHip 25

def isSquatting (k : Keypoints) : Prop :=
  k.leftHip.2 > k.leftKnee.2 ∧ k.rightHip.2 > k.rightKnee.2

def isJumping (k : Keypoints) : Prop :=
  k.leftAnkle.2 < k.leftKnee.2 ∧ k.rightAnkle.2 < k.rightKnee.2

noncomputable def isKickingRight (k : Keypoints) : Prop :=
  arePointsCollinear k.rightHip k.rightKnee k.rightAnkle 25

noncomputable def isKickingLeft (k : Keypoints) : Prop :=
  arePointsCollinear k.leftHip k.leftKnee k.leftAnkle 25

noncomputable def isStretchingUp (k : Keypoints) : Prop :=
  k.leftWrist.2 < k.nose.2 ∧ k.rightWrist.2 < k.nose.2 ∧
  arePointsCollinear k.leftShoulder k.leftElbow k.leftWrist 25 ∧
  arePointsCollinear k.rightShoulder k.rightElbow k.rightWrist 25

noncomputable def isSideBendRight (k : Keypoints) : Prop :=
  k.nose.1 > (hipMidpoint k).1 + shoulderToHipDist k * 0.2 ∧
  k.rightWrist.2 < (shoulderMidpoint k).2

noncomputable def isSideBendLeft (k : Keypoints) : Prop :=
  k.nose.1 < (hipMidpoint k).1 - shoulderToHipDist k * 0.2 ∧
  k.leftWrist.2 < (shoulderMidpoint k).2

noncomputable def isBoxingStance (k : Keypoints) : Prop :=
  hypot (k.leftWrist.1 - k.nose.1) (k.leftWrist.2 - k.nose.2) < 150 ∧
  hypot (k.rightWrist.1 - k.nose.1) (k.rightWrist.2 - k.nose.2) < 150

noncomputable def isSaluting (k : Keypoints) : Prop :=
  hypot (k.rightWrist.1 - k.nose.1) (k.rightWrist.2 - k.nose.2) < 80 ∧
  ¬ arePointsCollinear k.rightElbow k.rightShoulder k.leftShoulder 25

noncomputable def isFacepalmRight (k : Keypoints) : Prop :=
  hypot (k.rightWrist.1 - k.nose.1) (k.rightWrist.2 - k.nose.2) < 50 ∧
  k.nose.2 > (shoulderMidpoint k).2

noncomputable def isFacepalmLeft (k : Keypoints) : Prop :=
  hypot (k.leftWrist.1 - k.nose.1) (k.leftWrist.2 - k.nose.2) < 50 ∧
  k.nose.2 > (shoulderMidpoint k).2

noncomputable def isSitting (k : Keypoints) : Prop :=
  (hipMidpoint k).2 > (shoulderMidpoint k).2 + shoulderToHipDist k * 0.5 ∧
  k.leftKnee.2 < k.leftAnkle.2 ∧ k.rightKnee.2 < k.rightAnkle.2

noncomputable def isLeaningLeft (k : Keypoints) : Prop :=
  (shoulderMidpoint k).1 < (hipMidpoint k).1 - shoulderToHipDist k * 0.2

noncomputable def isLeaningRight (k : Keypoints) : Prop :=
  (shoulderMidpoint k).1 > (hipMidpoint k).1 + shoulderToHipDist k * 0.2

def isWalking (k : Keypoints) : Prop :=
  (k.leftKnee.2 > k.rightKnee.2 ∧ k.rightWrist.2 > k.leftWrist.2) ∨
  (k.rightKnee.2 > k.leftKnee.2 ∧ k.leftWrist.2 > k.rightWrist.2)

open Classical in
/-- Body of `recognize` after the precondition checks
(action-recognizer.js lines 66-184): the ordered if/return chain. -/
noncomputable def recognizeCore (k : Keypoints) : String :=
  if isTPose k then "t_pose"
  else if isCrossedArms k then "crossed_arms"
  else if isVictoryPose k then "victory_pose"
  else if isHandsUp k then "hands_up"
  else if isWavingRight k then "waving_right"
  else if isWavingLeft k then "waving_left"
  else if isPunchingRight k then "punching_right"
  else if isPunchingLeft k then "punching_left"
  else if isPointingRight k then "pointing_right"
  else if isPointingLeft k then "pointing_left"
  else if isClapping k then "clapping"
  else if isThumbsUpRight k then "thumbs_up_right"
  else if isThumbsUpLeft k then "thumbs_up_left"
  else if isDrinkingRight k then "drinking_right_hand"
  else if isDrinkingLeft k then "drinking_left_hand"
  else if isBrushingTeethRight k then "brushing_teeth_right"
  else if isBrushingTeethLeft k then "brushing_teeth_left"
  else if isCombingHairRight k then "combing_hair_right"
  else if isCombingHairLeft k then "combing_hair_left"
  else if isTyping k then "typing_on_keyboard"
  else if isReadingBook k then "reading_a_book"
  else if isDownwardDog k then "yoga_downward_dog"
  else if isSquatting k then "squatting"
  else if isJumping k then "jumping"
  else if isKickingRight k then "kicking_right_leg"
  else if isKickingLeft k then "kicking_left_leg"
  else if isStretchingUp k then "stretching_arms_up"
  else if isSideBendRight k then "stretching_side_bend_right"
  else if isSideBendLeft k then "stretching_side_bend_left"
  else if isBoxingStance k then "boxing_stance"
  else if isSaluting k then "saluting"
  else if isFacepalmRight k then "facepalm_right"
  else if isFacepalmLeft k then "facepalm_left"
  else if isSitting k then "sitting"
  else if isLeaningLeft k then "leaning_left"
  else if isLeaningRight k then "leaning_right"
  else if isWalking k then "walking"
  else "standing"

/-- Retrieval of the 13 required landmarks (action-recognizer.js
lines 29-47): `none` as soon as one of them is absent. -/
def requiredOf (l : List (Option Pt)) : Option Keypoints :=
  (getPoint (some l) 0).bind fun nose =>
  (getPoint (some l) 11).bind fun leftShoulder =>
  (getPoint (some l) 12).bind fun rightShoulder =>
  (getPoint (some l) 13).bind fun leftElbow =>
  (getPoint (some l) 14).bind fun rightElbow =>
  (getPoint (some l) 15).bind fun leftWrist =>
  (getPoint (some l) 16).bind fun rightWrist =>
  (getPoint (some l) 23).bind fun leftHip =>
  (getPoint (some l) 24).bind fun rightHip =>
  (getPoint (some l) 25).bind fun leftKnee =>
  (getPoint (some l) 26).bind fun rightKnee =>
  (getPoint (some l) 27).bind fun leftAnkle =>
  (getPoint (some l) 28).bind fun rightAnkle =>
  some ⟨nose, leftShoulder, rightShoulder, leftElbow, rightElbow, leftWrist,
    rightWrist, leftHip, rightHip, leftKnee, rightKnee, leftAnkle, rightAnkle⟩

/-- `ActionRecognizer.recognize(pose)` with the rich ruleset
(action-recognizer.js lines 23-185). -/
noncomputable def recognize (pose : Option (List (Option Pt))) : String :=
  match pose with
  | none => "unknown"
  | some l =>
    if l.length < 33 then "unknown"
    else
      match requiredOf l with
      | some k => recognizeCore k
      | none => "unknown"

open Classical in
/-- Spec-side first-match evaluator: the label of the first true predicate,
with fallback `"standing"`. -/
noncomputable def firstMatchLabel : List (Prop × String) → String
  | [] => "standing"
  | (p, label) :: rest => if p then label else firstMatchLabel rest

/-- The rich ruleset as an ordered rule list, in source order. -/
noncomputable def rules (k : Keypoints) : List (Prop × String) :=
  [(isTPose k, "t_pose"), (isCrossedArms k, "crossed_arms"),
   (isVictoryPose k, "victory_pose"), (isHandsUp k, "hands_up"),
   (isWavingRight k, "waving_right"), (isWavingLeft k, "waving_left"),
   (isPunchingRight k, "punching_right"), (isPunchingLeft k, "punching_left"),
   (isPointingRight k, "pointing_right"), (isPointingLeft k, "pointing_left"),
   (isClapping k, "clapping"), (isThumbsUpRight k, "thumbs_up_right"),
   (isThumbsUpLeft k, "thumbs_up_left"), (isDrinkingRight k, "drinking_right_hand"),
   (isDrinkingLeft k, "drinking_left_hand"),
   (isBrushingTeethRight k, "brushing_teeth_right"),
   (isBrushingTeethLeft k, "brushing_teeth_left"),
   (isCombingHairRight k, "combing_hair_right"),
   (isCombingHairLeft k, "combing_hair_left"), (isTyping k, "typing_on_keyboard"),
   (isReadingBook k, "reading_a_book"), (isDownwardDog k, "yoga_downward_dog"),
   (isSquatting k, "squatting"), (isJumping k, "jumping"),
   (isKickingRight k, "kicking_right_leg"), (isKickingLeft k, "kicking_left_leg"),
   (isStretchingUp k, "stretching_arms_up"),
   (isSideBendRight k, "stretching_side_bend_right"),
   (isSideBendLeft k, "stretching_side_bend_left"),
   (isBoxingStance k, "boxing_stance"), (isSaluting k, "saluting"),
   (isFacepalmRight k, "facepalm_right"), (isFacepalmLeft k, "facepalm_left"),
   (isSitting k, "sitting"), (isLeaningLeft k, "leaning_left"),
   (isLeaningRight k, "leaning_right"), (isWalking k, "walking")]

/-! ### Minimal ruleset (the unnamed 8-landmark variant) -/

/-- `this.SITTING_HIP_KNEE_THRESHOLD` of the minimal recognizer. -/
def SITTING_HIP_KNEE_THRESHOLD : ℝ := 20

/-- `this.PICKING_HAND_HIP_THRESHOLD` of the minimal recognizer. -/
def PICKING_HAND_HIP_THRESHOLD : ℝ := 50

/-- `this.KICKING_KNEE_HIP_THRESHOLD` of the minimal recognizer. -/
def KICKING_KNEE_HIP_THRESHOLD : ℝ := 40

/-- The 8 landmarks the minimal ruleset requires. -/
structure KeypointsMin where
  leftHip : Pt
  rightHip : Pt
  leftKnee : Pt
  rightKnee : Pt
  leftWrist : Pt
  rightWrist : Pt
  leftShoulder : Pt
  rightShoulder : Pt

/-- Body of the minimal `recognize` after its precondition checks
(unnamed source file, lines 42-72). -/
noncomputable def recognizeMinCore (k : KeypointsMin) : String :=
  if k.leftHip.2 > k.leftKnee.2 + SITTING_HIP_KNEE_THRESHOLD ∧
     k.rightHip.2 > k.rightKnee.2 + SITTING_HIP_KNEE_THRESHOLD then "sitting"
  else if k.leftKnee.2 < k.leftHip.2 - KICKING_KNEE_HIP_THRESHOLD then "kicking_left"
  else if k.rightKnee.2 < k.rightHip.2 - KICKING_KNEE_HIP_THRESHOLD then "kicking_right"
  else if k.leftWrist.2 > k.leftHip.2 + PICKING_HAND_HIP_THRESHOLD then "picking_left"
  else if k.rightWrist.2 > k.rightHip.2 + PICKING_HAND_HIP_THRESHOLD then "picking_right"
  else if |k.leftShoulder.1 - k.rightShoulder.1| < |k.leftHip.1 - k.rightHip.1| * 0.6
    then "turned_sideways"
  else "standing"

/-- Retrieval of the 8 required landmarks of the minimal recognizer, in its
source order. -/
def requiredMinOf (l : List (Option Pt)) : Option KeypointsMin :=
  (getPoint (some l) 23).bind fun leftHip =>
  (getPoint (some l) 24).bind fun rightHip =>
  (getPoint (some l) 25).bind fun leftKnee =>
  (getPoint (some l) 26).bind fun rightKnee =>
  (getPoint (some l) 15).bind fun leftWrist =>
  (getPoint (some l) 16).bind fun rightWrist =>
  (getPoint (some l) 11).bind fun leftShoulder =>
  (getPoint (some l) 12).bind fun rightShoulder =>
  some ⟨leftHip, rightHip, leftKnee, rightKnee, leftWrist, rightWrist,
    leftShoulder, rightShoulder⟩

/-- `ActionRecognizer.recognize(pose)` with the minimal ruleset
(unnamed source file, lines 23-72). -/
noncomputable def recognizeMin (pose : Option (List (Option Pt))) : String :=
  match pose with
  | none => "unknown"
  | some l =>
    if l.length < 33 then "unknown"
    else
      match requiredMinOf l with
      | some k => recognizeMinCore k
      | none => "unknown"

/-- The concrete 33-slot pose of the end-to-end scenario: wrists above
shoulders, elbows above shoulders, no arm close to collinear sideways. -/
def cposeList : List (Option Pt) :=
  [some (300, 100), none, none, none, none, none, none, none, none, none, none,
   some (400, 300), some (200, 300), some (400, 250), some (200, 250),
   some (400, 150), some (200, 150), none, none, none, none, none, none,
   some (380, 450), some (220, 450), some (380, 600), some (220, 600),
   some (380, 750), some (220, 750), none, none, none, none]

/-- The keypoints extracted from `cposeList`. -/
def cKeypoints : Keypoints :=
  ⟨(300, 100), (400, 300), (200, 300), (400, 250), (200, 250), (400, 150),
   (200, 150), (380, 450), (220, 450), (380, 600), (220, 600), (380, 750),
   (220, 750)⟩

/-- The minimal-ruleset keypoints extracted from `cposeList`. -/
def cKeypointsMin : KeypointsMin :=
  ⟨(380, 450), (220, 450), (380, 600), (220, 600), (400, 150), (200, 150),
   (400, 300), (200, 300)⟩

/-! ## Inverse kinematics solver

`PoseMapper.solveIK` / `applyIK` (mapper.js lines 52-147), embedded over the
reals with explicit tracking of non-finite numbers: a coordinate of type
`NNum = Option ℝ` is `none` when the JavaScript computation produces a
non-finite value (`NaN`, or an infinity that the following `Math.acos` turns
into `NaN`).  A point object may therefore carry non-finite fields (`NPt`),
and a slot of the array is additionally `null`-able (`Option NPt`). -/

/-- A JavaScript number that is either finite or non-finite (`none`). -/
abbrev NNum := Option ℝ

/-- A point object whose fields may hold non-finite numbers. -/
abbrev NPt := NNum × NNum

/-- Addition with non-finite propagation. -/
def oadd : NNum → NNum → NNum
  | some a, some b => some (a + b)
  | _, _ => none

/-- Subtraction with non-finite propagation. -/
def osub : NNum → NNum → NNum
  | some a, some b => some (a - b)
  | _, _ => none

/-- Multiplication with non-finite propagation. -/
def omul : NNum → NNum → NNum
  | some a, some b => some (a * b)
  | _, _ => none

/-- `Math.pow(a, 2)` with non-finite propagation. -/
def opow2 : NNum → NNum
  | some a => some (a ^ 2)
  | none => none

/-- `Math.sqrt` with non-finite propagation: a negative argument gives `NaN`. -/
noncomputable def osqrt : NNum → NNum
  | some a => if a < 0 then none else some (Real.sqrt a)
  | none => none

/-- JavaScript division, tracking non-finiteness: `0/0` is `NaN` and `x/0` is
an infinity, so any zero denominator yields a non-finite result. -/
noncomputable def jsdiv : NNum → NNum → NNum
  | some a, some b => if b = 0 then none else some (a / b)
  | _, _ => none

/-- `Math.acos`: `NaN` outside the domain [-1, 1] and on non-finite input. -/
noncomputable def jsacos : NNum → NNum
  | some a => if a < -1 ∨ 1 < a then none else some (Real.arccos a)
  | none => none

/-- `Math.cos` with non-finite propagation. -/
noncomputable def ocos : NNum → NNum
  | some a => some (Real.cos a)
  | none => none

/-- `Math.sin` with non-finite propagation. -/
noncomputable def osin : NNum → NNum
  | some a => some (Real.sin a)
  | none => none

/-- `Math.atan2(y, x)`, finite for all finite arguments (including (0,0),
where it returns 0), modelled by the complex argument. -/
noncomputable def oatan2 : NNum → NNum → NNum
  | some y, some x => some (Complex.arg ⟨x, y⟩)
  | _, _ => none

/-- A JavaScript `>` comparison: false when either side is `NaN`. -/
def ogt (a b : NNum) : Prop :=
  match a, b with
  | some x, some y => y < x
  | _, _ => False

/-- `PoseMapper.distance(p1, p2)` (mapper.js lines 119-122): 0 when either
point is null, else `Math.sqrt((x2-x1)^2 + (y2-y1)^2)`. -/
noncomputable def distance : Option NPt → Option NPt → NNum
  | some p1, some p2 =>
    osqrt (oadd (opow2 (osub p2.1 p1.1)) (opow2 (osub p2.2 p1.2)))
  | _, _ => some 0

/-- `PoseMapper.subtract` (mapper.js lines 124-126). -/
def subtract (p1 p2 : NPt) : NPt := (osub p1.1 p2.1, osub p1.2 p2.2)

/-- `PoseMapper.add` (mapper.js lines 128-130). -/
def add (p1 p2 : NPt) : NPt := (oadd p1.1 p2.1, oadd p1.2 p2.2)

/-- `PoseMapper.multiply` (mapper.js lines 132-134). -/
def multiply (p : NPt) (scalar : NNum) : NPt := (omul p.1 scalar, omul p.2 scalar)

open Classical in
/-- `PoseMapper.normalize` (mapper.js lines 136-140): the zero-magnitude guard
uses `===`, which is false on a non-finite magnitude. -/
noncomputable def normalize (p : NPt) : NPt :=
  let mag := osqrt (oadd (omul p.1 p.1) (omul p.2 p.2))
  if mag = some 0 then (some 0, some 0) else (jsdiv p.1 mag, jsdiv p.2 mag)

/-- Result object of `solveIK`. -/
structure IKRes where
  elbow : NPt
  wrist : NPt

open Classical in
/-- `PoseMapper.solveIK(p1, p2, p3)` (mapper.js lines 89-116). -/
noncomputable def solveIK (p1 p2 p3 : Option NPt) : Option IKRes :=
  match p1, p2, p3 with
  | some q1, some q2, some q3 =>
    let l1 := distance (some q1) (some q2)
    let l2 := distance (some q2) (some q3)
    let target0 := q3
    let dist0 := distance (some q1) (some target0)
    let targetAndDist :=
      if ogt dist0 (oadd l1 l2) then
        (add q1 (multiply (normalize (subtract target0 q1)) (oadd l1 l2)),
          oadd l1 l2)
      else (target0, dist0)
    let target := targetAndDist.1
    let dist := targetAndDist.2
    let angle1 := jsacos (jsdiv
      (osub (oadd (omul l1 l1) (omul dist dist)) (omul l2 l2))
      (omul (omul (some 2) l1) dist))
    let angle2 := oatan2 (osub target.2 q1.2) (osub target.1 q1.1)
    some ⟨(oadd q1.1 (omul l1 (ocos (osub angle2 angle1))),
           oadd q1.2 (omul l1 (osin (osub angle2 angle1)))),
          target⟩
  | _, _, _ => none

open Classical in
/-- `PoseMapper.applyIK(points)` (mapper.js lines 52-80). -/
noncomputable def applyIK : Option (List (Option NPt)) → Option (List (Option NPt))
  | none => none
  | some points =>
    if points.length < 33 then some points
    else
      let result0 := points
      let result1 :=
        match solveIK (points.getD 11 none) (points.getD 13 none)
            (points.getD 15 none) with
        | some leftArm => (result0.set 13 (some leftArm.elbow)).set 15 (some leftArm.wrist)
        | none => result0
      let result2 :=
        match solveIK (points.getD 12 none) (points.getD 14 none)
            (points.getD 16 none) with
        | some rightArm => (result1.set 14 (some rightArm.elbow)).set 16 (some rightArm.wrist)
        | none => result1
      some result2

/-- A finite, present input point. -/
def finPt (p : ℝ × ℝ) : Option NPt := some (some p.1, some p.2)

/-- The real-number reading of `distance` on finite points. -/
noncomputable def rdist (p q : ℝ × ℝ) : ℝ :=
  Real.sqrt ((q.1 - p.1) ^ 2 + (q.2 - p.2) ^ 2)

theorem blendPoints_getD (alpha : ℚ) (prev : List JVal) :
    ∀ (cur : List JVal) (j i : ℕ), i < cur.length →
      (blendPoints alpha prev j cur).getD i JVal.null
        = lerpPoint (prev.getD (j + i) JVal.null) (cur.getD i JVal.null) alpha
  | [], _, i, hi => by simp at hi
  | c :: cs, j, 0, _ => by simp [blendPoints]
  | c :: cs, j, i + 1, hi => by
    have hrec := blendPoints_getD alpha prev cs (j + 1) i
      (by simpa using Nat.lt_of_succ_lt_succ hi)
    simp only [blendPoints, List.getD_cons_succ]
    rw [hrec]
    have harith : j + 1 + i = j + (i + 1) := by omega
    rw [harith]

/-- C2 counterexample: `lerpPoint` with both sides absent does not return
absent; it returns a present empty object (JS `{...null}` is `{}`). -/
theorem C2_both_absent_cex :
    lerpPoint JVal.null JVal.null (1/2) = JVal.obj none none ∧
    lerpPoint JVal.null JVal.null (1/2) ≠ JVal.null := by decide

/-- C2 (amended): `lerpPoint` with exactly one side absent returns a copy of
the non-absent side; with both sides absent it returns a present empty object
(not absent).  Consequently `smooth` blends index `i` of the new frame with
the stored frame by `lerpPoint`, so it retains the previous value where the
new frame is absent and adopts the new point where the stored slot is absent. -/
theorem C2_absence_blend (x y : Option ℚ) (t alpha : ℚ) (prev cur : List JVal)
    (i : ℕ) (hi : i < cur.length) :
    lerpPoint (JVal.obj x y) JVal.null t = JVal.obj x y ∧
    lerpPoint JVal.null (JVal.obj x y) t = JVal.obj x y ∧
    lerpPoint JVal.null JVal.null t = JVal.obj none none ∧
    (smooth ⟨alpha, some prev⟩ cur).1.getD i JVal.null
      = lerpPoint (prev.getD i JVal.null) (cur.getD i JVal.null) alpha := by
  refine ⟨rfl, rfl, rfl, ?_⟩
  have h := blendPoints_getD alpha prev cur 0 i hi
  simpa [smooth] using h

theorem C2_absence_blend_witness :
    (0 : ℕ) < 1 ∧
    (lerpPoint (JVal.obj (some 1) (some 2)) JVal.null (1/2)
        = JVal.obj (some 1) (some 2) ∧
      lerpPoint JVal.null (JVal.obj (some 1) (some 2)) (1/2)
        = JVal.obj (some 1) (some 2) ∧
      lerpPoint JVal.null JVal.null (1/2) = JVal.obj none none ∧
      (smooth ⟨1/2, some [JVal.obj (some 0) (some 0)]⟩ [JVal.null]).1.getD 0 JVal.null
        = lerpPoint ([JVal.obj (some 0) (some 0)].getD 0 JVal.null)
            ([JVal.null].getD 0 JVal.null) (1/2)) :=
  ⟨by decide,
    C2_absence_blend (some 1) (some 2) (1/2) (1/2)
      [JVal.obj (some 0) (some 0)] [JVal.null] 0 (by decide)⟩

/-- C6 counterexample: the mapper preserves the input length, so a 1-entry
landmark list yields a 1-entry output, not a 33-entry one. -/
theorem C6_length_cex :
    (landmarksToPoints [some (1/2, 1/2)] 640 480 false).length = 1 ∧
    (landmarksToPoints [some (1/2, 1/2)] 640 480 false).length ≠ 33 := by decide

/-- C6 (amended): `landmarksToPoints` is a pure function whose output has the
same length as its input (33 exactly when the input has 33 entries); each
present landmark `(nx, ny)` maps to `(nx*w, ny*h)` without mirroring and to
`(w - nx*w, ny*h)` with mirroring, and each absent entry maps to absent at
the same index. -/
theorem C6_map (landmarks : List (Option (ℚ × ℚ))) (w h : ℚ) (mirror : Bool) :
    (landmarksToPoints landmarks w h mirror).length = landmarks.length ∧
    ∀ i : ℕ, (landmarksToPoints landmarks w h mirror).getD i none
      = match landmarks.getD i none with
        | none => none
        | some lm => some (if mirror then w - lm.1 * w else lm.1 * w, lm.2 * h) := by
  constructor
  · simp [landmarksToPoints]
  · intro i
    induction landmarks generalizing i with
    | nil => simp [landmarksToPoints]
    | cons a l ih =>
      cases i with
      | zero => cases a <;> simp [landmarksToPoints]
      | succ n =>
        have := ih n
        simpa [landmarksToPoints] using this

/-- C7: the smoother implements the EMA recursion.  A cold-start call returns
the input unchanged and stores a defensive copy; a subsequent call returns the
per-index `lerpPoint` blend of the stored frame with the new frame and stores
that blended result; with alpha = 1/2, smoothing `[(0,0)]` then `[(10,20)]`
yields `[(5,10)]`. -/
theorem C7_ema (alpha beta : ℚ) (prev cur cold : List JVal) (i : ℕ)
    (hi : i < cur.length) :
    smooth (Smoother.init beta) cold = (cold, ⟨beta, some (cold.map copyPoint)⟩) ∧
    (smooth ⟨alpha, some prev⟩ cur).1.getD i JVal.null
      = lerpPoint (prev.getD i JVal.null) (cur.getD i JVal.null) alpha ∧
    (smooth ⟨alpha, some prev⟩ cur).2.previousPoints
      = some (smooth ⟨alpha, some prev⟩ cur).1 ∧
    (smooth (smooth (Smoother.init (1/2)) [JVal.obj (some 0) (some 0)]).2
        [JVal.obj (some 10) (some 20)]).1 = [JVal.obj (some 5) (some 10)] := by
  refine ⟨rfl, ?_, rfl,
    by norm_num [smooth, Smoother.init, blendPoints, lerpPoint, jlerp, lerp, copyPoint]⟩
  have h := blendPoints_getD alpha prev cur 0 i hi
  simpa [smooth] using h

theorem C7_ema_witness :
    (0 : ℕ) < 1 ∧
    ((smooth ⟨1/2, some [JVal.obj (some 0) (some 0)]⟩ [JVal.obj (some 10) (some 20)]).1.getD
        0 JVal.null
      = lerpPoint ([JVal.obj (some 0) (some 0)].getD 0 JVal.null)
          ([JVal.obj (some 10) (some 20)].getD 0 JVal.null) (1/2)) :=
  ⟨by decide,
    (C7_ema (1/2) (1/2) [JVal.obj (some 0) (some 0)] [JVal.obj (some 10) (some 20)]
      [] 0 (by decide)).2.1⟩

/-- C10 counterexample: the constructor does not clamp; constructing a
smoother with alpha = 2 stores alpha = 2, outside [0,1]. -/
theorem C10_ctor_cex :
    ¬ (0 ≤ (Smoother.init 2).alpha ∧ (Smoother.init 2).alpha ≤ 1) := by decide

/-- C10 (amended): the constructor stores its argument unclamped, but after
any `setAlpha` call, and after any further sequence of `setAlpha` calls with
arbitrary values, the stored alpha lies in [0,1]; and `setAlpha` never alters
the stored previous state. -/
theorem C10_setAlpha_clamped (s : Smoother) (v : ℚ) (vs : List ℚ) :
    (Smoother.init v).alpha = v ∧
    (0 ≤ (setAlpha s v).alpha ∧ (setAlpha s v).alpha ≤ 1) ∧
    (setAlpha s v).previousPoints = s.previousPoints ∧
    (0 ≤ (vs.foldl setAlpha (setAlpha s v)).alpha ∧
      (vs.foldl setAlpha (setAlpha s v)).alpha ≤ 1) ∧
    (vs.foldl setAlpha (setAlpha s v)).previousPoints = s.previousPoints := by
  have hbound : ∀ (r : Smoother) (a : ℚ),
      0 ≤ (setAlpha r a).alpha ∧ (setAlpha r a).alpha ≤ 1 := by
    intro r a
    constructor
    · exact le_max_left 0 _
    · exact max_le (by norm_num) (min_le_left 1 a)
  have hfold : ∀ (l : List ℚ) (r : Smoother),
      (0 ≤ r.alpha ∧ r.alpha ≤ 1) →
      (0 ≤ (l.foldl setAlpha r).alpha ∧ (l.foldl setAlpha r).alpha ≤ 1) ∧
      (l.foldl setAlpha r).previousPoints = r.previousPoints := by
    intro l
    induction l with
    | nil => intro r hr; exact ⟨hr, rfl⟩
    | cons a l ih =>
      intro r hr
      have h := ih (setAlpha r a) (hbound r a)
      exact ⟨h.1, h.2⟩
  refine ⟨rfl, hbound s v, rfl, ?_, ?_⟩
  · exact (hfold vs (setAlpha s v) (hbound s v)).1
  · exact (hfold vs (setAlpha s v) (hbound s v)).2

/-! ## Classifier theorems -/

set_option maxHeartbeats 1600000 in
theorem requiredOf_missing (l : List (Option Pt)) (j : ℕ)
    (hj : j ∈ ([0, 11, 12, 13, 14, 15, 16, 23, 24, 25, 26, 27, 28] : List ℕ))
    (h : getPoint (some l) j = none) : requiredOf l = none := by
  simp only [List.mem_cons, List.not_mem_nil, or_false] at hj
  rcases hj with rfl | rfl | rfl | rfl | rfl | rfl | rfl | rfl | rfl | rfl | rfl | rfl | rfl <;>
    simp [requiredOf, h]

theorem requiredMinOf_missing (l : List (Option Pt)) (j : ℕ)
    (hj : j ∈ ([23, 24, 25, 26, 15, 16, 11, 12] : List ℕ))
    (h : getPoint (some l) j = none) : requiredMinOf l = none := by
  simp only [List.mem_cons, List.not_mem_nil, or_false] at hj
  rcases hj with rfl | rfl | rfl | rfl | rfl | rfl | rfl | rfl <;>
    simp [requiredMinOf, h]

/-- C5: a null or short pose, or any absent required landmark (13 for the
rich ruleset, 8 for the minimal one), makes `recognize` return the sentinel
label `"unknown"`, regardless of every other landmark value. -/
theorem C5_precondition (l lmin s : List (Option Pt)) (j jmin : ℕ)
    (hs : s.length < 33)
    (hj : j ∈ ([0, 11, 12, 13, 14, 15, 16, 23, 24, 25, 26, 27, 28] : List ℕ))
    (hnull : getPoint (some l) j = none)
    (hjmin : jmin ∈ ([23, 24, 25, 26, 15, 16, 11, 12] : List ℕ))
    (hnullmin : getPoint (some lmin) jmin = none) :
    recognize none = "unknown" ∧ recognizeMin none = "unknown" ∧
    recognize (some s) = "unknown" ∧ recognizeMin (some s) = "unknown" ∧
    recognize (some l) = "unknown" ∧ recognizeMin (some lmin) = "unknown" := by
  refine ⟨rfl, rfl, ?_, ?_, ?_, ?_⟩
  · simp [recognize, if_pos hs]
  · simp [recognizeMin, if_pos hs]
  · have hreq := requiredOf_missing l j hj hnull
    by_cases hl : l.length < 33
    · simp [recognize, if_pos hl]
    · simp [recognize, if_neg hl, hreq]
  · have hreq := requiredMinOf_missing lmin jmin hjmin hnullmin
    by_cases hl : lmin.length < 33
    · simp [recognizeMin, if_pos hl]
    · simp [recognizeMin, if_neg hl, hreq]

theorem C5_precondition_witness :
    ([] : List (Option Pt)).length < 33 ∧
    0 ∈ ([0, 11, 12, 13, 14, 15, 16, 23, 24, 25, 26, 27, 28] : List ℕ) ∧
    getPoint (some (List.replicate 33 (none : Option Pt))) 0 = none ∧
    23 ∈ ([23, 24, 25, 26, 15, 16, 11, 12] : List ℕ) ∧
    getPoint (some (List.replicate 33 (none : Option Pt))) 23 = none ∧
    recognize (some (List.replicate 33 none)) = "unknown" ∧
    recognizeMin (some (List.replicate 33 none)) = "unknown" :=
  ⟨by decide, by decide, rfl, by decide, rfl,
    (C5_precondition (List.replicate 33 none) (List.replicate 33 none) [] 0 23
      (by decide) (by decide) rfl (by decide) rfl).2.2.2.2⟩

theorem recognizeCore_eq_firstMatch (k : Keypoints) :
    recognizeCore k = firstMatchLabel (rules k) := by
  simp only [recognizeCore, rules, firstMatchLabel]

/-- C4: for a pose that passes the precondition (length at least 33, all 13
required landmarks present), `recognize` returns the label of the first true
predicate of its fixed ordered rule list, and `"standing"` when none is true;
in particular a pose satisfying several predicates gets the earliest label. -/
theorem C4_first_match (l : List (Option Pt)) (k : Keypoints)
    (hlen : ¬ l.length < 33) (hk : requiredOf l = some k) :
    recognize (some l) = firstMatchLabel (rules k) := by
  simp only [recognize, if_neg hlen, hk]
  exact recognizeCore_eq_firstMatch k

theorem C4_first_match_witness :
    ¬ cposeList.length < 33 ∧ requiredOf cposeList = some cKeypoints ∧
    recognize (some cposeList) = firstMatchLabel (rules cKeypoints) :=
  ⟨by decide, rfl, C4_first_match cposeList cKeypoints (by decide) rfl⟩

theorem recognizeMin_ne_hands_up (pose : Option (List (Option Pt))) :
    recognizeMin pose ≠ "hands_up" := by
  cases pose with
  | none => simp [recognizeMin]
  | some l =>
    simp only [recognizeMin, recognizeMinCore]
    repeat' split
    all_goals decide

/-- C8 counterexample: the minimal ruleset has no hands-up-equivalent label
at all (no pose is ever classified `"hands_up"`), and on the spec scenario
pose (wrists above shoulders, elbows above shoulders) it returns
`"standing"`. -/
theorem C8_minimal_cex :
    recognizeMin (some cposeList) = "standing" ∧
    ∀ pose, recognizeMin pose ≠ "hands_up" := by
  constructor
  · have h6 : ¬ (|cKeypointsMin.leftShoulder.1 - cKeypointsMin.rightShoulder.1| <
        |cKeypointsMin.leftHip.1 - cKeypointsMin.rightHip.1| * 0.6) := by
      have e1 : cKeypointsMin.leftShoulder.1 - cKeypointsMin.rightShoulder.1 = 200 := by
        norm_num [cKeypointsMin]
      have e2 : cKeypointsMin.leftHip.1 - cKeypointsMin.rightHip.1 = 160 := by
        norm_num [cKeypointsMin]
      rw [e1, e2, abs_of_pos (by norm_num : (0:ℝ) < 200),
        abs_of_pos (by norm_num : (0:ℝ) < 160)]
      norm_num
    simp only [recognizeMin]
    rw [if_neg (by decide : ¬ cposeList.length < 33)]
    rw [show requiredMinOf cposeList = some cKeypointsMin from rfl]
    simp only [recognizeMinCore]
    rw [if_neg (by norm_num [cKeypointsMin, SITTING_HIP_KNEE_THRESHOLD]),
      if_neg (by norm_num [cKeypointsMin, KICKING_KNEE_HIP_THRESHOLD]),
      if_neg (by norm_num [cKeypointsMin, KICKING_KNEE_HIP_THRESHOLD]),
      if_neg (by norm_num [cKeypointsMin, PICKING_HAND_HIP_THRESHOLD]),
      if_neg (by norm_num [cKeypointsMin, PICKING_HAND_HIP_THRESHOLD]),
      if_neg h6]
  · exact recognizeMin_ne_hands_up

/-- C8 (amended): on a pose with both wrists above both shoulders and elbows
above shoulder height that defeats the earlier t-pose, crossed-arms and
victory-pose rules, the RICH ruleset returns `"hands_up"` before any more
generic rule fires; the minimal ruleset has no hands-up-equivalent label. -/
theorem C8_hands_up_rich : recognize (some cposeList) = "hands_up" := by
  have hT : ¬ isTPose cKeypoints := by
    simp only [isTPose, cKeypoints]
    intro h
    have h3 := h.2.2.1
    rw [show ((400:ℝ), (300:ℝ)).2 - ((400:ℝ), (250:ℝ)).2 = 50 by norm_num] at h3
    rw [abs_of_pos (by norm_num : (0:ℝ) < 50)] at h3
    norm_num at h3
  have hC : ¬ isCrossedArms cKeypoints := by
    simp only [isCrossedArms, cKeypoints, hypot]
    intro h
    have h1 := h.1
    norm_num at h1
    rw [Real.sqrt_lt' (by norm_num : (0:ℝ) < 100)] at h1
    norm_num at h1
  have hV : ¬ isVictoryPose cKeypoints := by
    simp only [isVictoryPose, cKeypoints]
    intro h
    exact absurd h.2.2.1 (by norm_num)
  have hH : isHandsUp cKeypoints := by
    simp only [isHandsUp, cKeypoints]
    norm_num
  simp only [recognize]
  rw [if_neg (by decide : ¬ cposeList.length < 33)]
  rw [show requiredOf cposeList = some cKeypoints from rfl]
  simp only [recognizeCore]
  rw [if_neg hT, if_neg hC, if_neg hV, if_pos hH]

/-! ## IK theorems -/

/-- C1: the code has no acos clamping and no degenerate-distance guard; with
the wrist at the shoulder (`p3 = p1`) the law-of-cosines step divides zero by
zero and `Math.acos(NaN)` poisons both elbow coordinates with `NaN`, while
the spec requires the elbow to be placed at `shoulder + (l1, 0)`. -/
theorem C1_degenerate_nan :
    solveIK (finPt (0, 0)) (finPt (1, 0)) (finPt (0, 0))
      = some ⟨(none, none), (some 0, some 0)⟩ := by
  simp only [solveIK, finPt, distance, osqrt, oadd, osub, omul, opow2, jsdiv,
    jsacos, ocos, osin, oatan2, ogt]
  norm_num [Real.sqrt_zero, Real.sqrt_one]

theorem solveIK_absent (p1 p2 p3 : Option NPt)
    (h : p1 = none ∨ p2 = none ∨ p3 = none) : solveIK p1 p2 p3 = none := by
  rcases h with rfl | rfl | rfl
  · cases p2 <;> cases p3 <;> rfl
  · cases p1 <;> cases p3 <;> rfl
  · cases p1 <;> cases p2 <;> rfl

theorem getD_set_ne {α : Type} (l : List α) (k i : ℕ) (v d : α) (h : k ≠ i) :
    (l.set k v).getD i d = l.getD i d := by
  simp [List.getD_eq_getElem?_getD, List.getElem?_set_ne h]

/-- C9: `applyIK` returns an array of the same length in which only slots
13, 15 (left elbow/wrist) and 14, 16 (right elbow/wrist) can differ from the
input; an arm with an absent shoulder, elbow or wrist leaves that arm's slots
untouched.  (Non-mutation of the input array is intrinsic to the functional
embedding: the input list is unchanged and the result is a fresh value.) -/
theorem C9_applyIK (pts : List (Option NPt)) (i : ℕ)
    (h13 : i ≠ 13) (h14 : i ≠ 14) (h15 : i ≠ 15) (h16 : i ≠ 16) :
    ∃ res, applyIK (some pts) = some res ∧
      res.length = pts.length ∧
      res.getD i none = pts.getD i none ∧
      ((pts.getD 11 none = none ∨ pts.getD 13 none = none ∨ pts.getD 15 none = none) →
        res.getD 13 none = pts.getD 13 none ∧ res.getD 15 none = pts.getD 15 none) ∧
      ((pts.getD 12 none = none ∨ pts.getD 14 none = none ∨ pts.getD 16 none = none) →
        res.getD 14 none = pts.getD 14 none ∧ res.getD 16 none = pts.getD 16 none) := by
  by_cases hlen : pts.length < 33
  · exact ⟨pts, by simp [applyIK, if_pos hlen], rfl, rfl,
      fun _ => ⟨rfl, rfl⟩, fun _ => ⟨rfl, rfl⟩⟩
  · rcases hLc : solveIK (pts.getD 11 none) (pts.getD 13 none) (pts.getD 15 none)
      with _ | arm <;>
    rcases hRc : solveIK (pts.getD 12 none) (pts.getD 14 none) (pts.getD 16 none)
      with _ | armR
    · exact ⟨pts, by simp only [applyIK, if_neg hlen, hLc, hRc], rfl, rfl,
        fun _ => ⟨rfl, rfl⟩, fun _ => ⟨rfl, rfl⟩⟩
    · refine ⟨(pts.set 14 (some armR.elbow)).set 16 (some armR.wrist),
        by simp only [applyIK, if_neg hlen, hLc, hRc], by simp, ?_, ?_, ?_⟩
      · rw [getD_set_ne _ _ _ _ _ (fun hc => h16 hc.symm),
          getD_set_ne _ _ _ _ _ (fun hc => h14 hc.symm)]
      · intro _
        constructor
        · rw [getD_set_ne _ _ _ _ _ (by omega), getD_set_ne _ _ _ _ _ (by omega)]
        · rw [getD_set_ne _ _ _ _ _ (by omega), getD_set_ne _ _ _ _ _ (by omega)]
      · intro habs
        rw [solveIK_absent _ _ _ habs] at hRc
        cases hRc
    · refine ⟨(pts.set 13 (some arm.elbow)).set 15 (some arm.wrist),
        by simp only [applyIK, if_neg hlen, hLc, hRc], by simp, ?_, ?_, ?_⟩
      · rw [getD_set_ne _ _ _ _ _ (fun hc => h15 hc.symm),
          getD_set_ne _ _ _ _ _ (fun hc => h13 hc.symm)]
      · intro habs
        rw [solveIK_absent _ _ _ habs] at hLc
        cases hLc
      · intro _
        constructor
        · rw [getD_set_ne _ _ _ _ _ (by omega), getD_set_ne _ _ _ _ _ (by omega)]
        · rw [getD_set_ne _ _ _ _ _ (by omega), getD_set_ne _ _ _ _ _ (by omega)]
    · refine ⟨((((pts.set 13 (some arm.elbow)).set 15 (some arm.wrist)).set 14
          (some armR.elbow)).set 16 (some armR.wrist)),
        by simp only [applyIK, if_neg hlen, hLc, hRc], by simp, ?_, ?_, ?_⟩
      · rw [getD_set_ne _ _ _ _ _ (fun hc => h16 hc.symm),
          getD_set_ne _ _ _ _ _ (fun hc => h14 hc.symm),
          getD_set_ne _ _ _ _ _ (fun hc => h15 hc.symm),
          getD_set_ne _ _ _ _ _ (fun hc => h13 hc.symm)]
      · intro habs
        rw [solveIK_absent _ _ _ habs] at hLc
        cases hLc
      · intro habs
        rw [solveIK_absent _ _ _ habs] at hRc
        cases hRc

theorem C9_applyIK_witness :
    (0 : ℕ) ≠ 13 ∧ (0 : ℕ) ≠ 14 ∧ (0 : ℕ) ≠ 15 ∧ (0 : ℕ) ≠ 16 ∧
    (∃ res, applyIK (some (List.replicate 33 (none : Option NPt))) = some res ∧
      res.length = (List.replicate 33 (none : Option NPt)).length ∧
      res.getD 0 none = (List.replicate 33 (none : Option NPt)).getD 0 none ∧
      (((List.replicate 33 (none : Option NPt)).getD 11 none = none ∨
        (List.replicate 33 (none : Option NPt)).getD 13 none = none ∨
        (List.replicate 33 (none : Option NPt)).getD 15 none = none) →
        res.getD 13 none = (List.replicate 33 (none : Option NPt)).getD 13 none ∧
        res.getD 15 none = (List.replicate 33 (none : Option NPt)).getD 15 none) ∧
      (((List.replicate 33 (none : Option NPt)).getD 12 none = none ∨
        (List.replicate 33 (none : Option NPt)).getD 14 none = none ∨
        (List.replicate 33 (none : Option NPt)).getD 16 none = none) →
        res.getD 14 none = (List.replicate 33 (none : Option NPt)).getD 14 none ∧
        res.getD 16 none = (List.replicate 33 (none : Option NPt)).getD 16 none)) :=
  ⟨by decide, by decide, by decide, by decide,
    C9_applyIK (List.replicate 33 none) 0 (by decide) (by decide) (by decide) (by decide)⟩

theorem rdist_eq_abs (p q : ℝ × ℝ) :
    rdist p q = Complex.abs ⟨q.1 - p.1, q.2 - p.2⟩ := by
  rw [Complex.abs_apply, Complex.normSq_apply]
  simp only [rdist]
  ring_nf

theorem rdist_symm (p q : ℝ × ℝ) : rdist p q = rdist q p := by
  unfold rdist
  congr 1
  ring

theorem rdist_pos (p q : ℝ × ℝ) (h : p ≠ q) : 0 < rdist p q := by
  rw [rdist_eq_abs]
  apply Complex.abs.pos
  intro hc
  apply h
  rw [Complex.ext_iff] at hc
  simp only [Complex.zero_re, Complex.zero_im] at hc
  ext
  · linarith [hc.1]
  · linarith [hc.2]

theorem rdist_triangle (a b c : ℝ × ℝ) : rdist a c ≤ rdist a b + rdist b c := by
  rw [rdist_eq_abs a c, rdist_eq_abs a b, rdist_eq_abs b c]
  have h : (⟨c.1 - a.1, c.2 - a.2⟩ : ℂ) = ⟨b.1 - a.1, b.2 - a.2⟩ + ⟨c.1 - b.1, c.2 - b.2⟩ := by
    apply Complex.ext <;> simp
  rw [h]
  exact Complex.abs.add_le _ _

theorem rdist_rev_triangle (a b c : ℝ × ℝ) :
    |rdist a b - rdist a c| ≤ rdist b c := by
  rw [rdist_eq_abs a b, rdist_eq_abs a c, rdist_eq_abs b c]
  have h := Complex.abs.abs_abv_sub_le_abv_sub
    (⟨b.1 - a.1, b.2 - a.2⟩ : ℂ) (⟨c.1 - a.1, c.2 - a.2⟩ : ℂ)
  have heq : (⟨b.1 - a.1, b.2 - a.2⟩ : ℂ) - ⟨c.1 - a.1, c.2 - a.2⟩
      = -(⟨c.1 - b.1, c.2 - b.2⟩ : ℂ) := by
    apply Complex.ext <;> simp
  rw [heq, Complex.abs.map_neg] at h
  exact h

theorem distance_finPt (p q : ℝ × ℝ) :
    distance (some (some p.1, some p.2)) (some (some q.1, some q.2))
      = some (rdist p q) := by
  simp only [distance, osub, opow2, oadd, osqrt]
  rw [if_neg (not_lt.mpr (by positivity))]
  rfl

theorem dist_polar (a : ℝ × ℝ) (r θ : ℝ) (h : 0 ≤ r) :
    rdist a (a.1 + r * Real.cos θ, a.2 + r * Real.sin θ) = r := by
  simp only [rdist]
  have hkey : (a.1 + r * Real.cos θ - a.1) ^ 2 + (a.2 + r * Real.sin θ - a.2) ^ 2
      = r ^ 2 := by
    have hid := Real.sin_sq_add_cos_sq θ
    linear_combination r ^ 2 * hid
  rw [hkey]
  exact Real.sqrt_sq h

theorem dist_from_polar (a c : ℝ × ℝ) (r d s θ2 θ1 : ℝ)
    (h1 : d * Real.cos θ2 = c.1 - a.1) (h2 : d * Real.sin θ2 = c.2 - a.2)
    (hs : 0 ≤ s)
    (hkey : 2 * d * r * Real.cos θ1 = r * r + d * d - s * s) :
    rdist (a.1 + r * Real.cos (θ2 - θ1), a.2 + r * Real.sin (θ2 - θ1)) c = s := by
  simp only [rdist]
  have e1 : c.1 - (a.1 + r * Real.cos (θ2 - θ1))
      = d * Real.cos θ2 - r * Real.cos (θ2 - θ1) := by linarith [h1]
  have e2 : c.2 - (a.2 + r * Real.sin (θ2 - θ1))
      = d * Real.sin θ2 - r * Real.sin (θ2 - θ1) := by linarith [h2]
  rw [e1, e2]
  have hsq2 := Real.sin_sq_add_cos_sq θ2
  have hsqT := Real.sin_sq_add_cos_sq (θ2 - θ1)
  have hdot : Real.cos θ2 * Real.cos (θ2 - θ1) + Real.sin θ2 * Real.sin (θ2 - θ1)
      = Real.cos θ1 := by
    rw [← Real.cos_sub]
    congr 1
    ring
  have hstep : (d * Real.cos θ2 - r * Real.cos (θ2 - θ1)) ^ 2
      + (d * Real.sin θ2 - r * Real.sin (θ2 - θ1)) ^ 2 = s ^ 2 := by
    linear_combination d ^ 2 * hsq2 + r ^ 2 * hsqT - 2 * d * r * hdot - hkey
  rw [hstep]
  exact Real.sqrt_sq hs

/-- C3 counterexample: the claim quantifies over every triple of present
points, but on the present, reachable triple with shoulder = elbow
(`a = b = (0,0)`, `c = (1,0)`, reachable since `dist = 1 <= l1 + l2 = 0 + 1`,
the second conjunct) the code computes `acos(0/0)` and both elbow coordinates
are non-finite, so no output elbow exists at distance `l1` from the
shoulder and bone lengths are not preserved. -/
theorem C3_degenerate_cex :
    solveIK (finPt ((0:ℝ), (0:ℝ))) (finPt ((0:ℝ), (0:ℝ))) (finPt ((1:ℝ), (0:ℝ)))
      = some ⟨(none, none), (some 1, some 0)⟩ ∧
    rdist ((0:ℝ), (0:ℝ)) ((1:ℝ), (0:ℝ))
      ≤ rdist ((0:ℝ), (0:ℝ)) ((0:ℝ), (0:ℝ))
        + rdist ((0:ℝ), (0:ℝ)) ((1:ℝ), (0:ℝ)) := by
  constructor
  · simp only [solveIK, finPt, distance, osqrt, oadd, osub, omul, opow2, jsdiv,
      jsacos, ocos, osin, oatan2, ogt]
    norm_num [Real.sqrt_zero, Real.sqrt_one]
  · exact rdist_triangle ((0:ℝ), (0:ℝ)) ((0:ℝ), (0:ℝ)) ((1:ℝ), (0:ℝ))

/-- C3 (amended): on present inputs in which the shoulder coincides with
neither the elbow nor the wrist (the degenerate coincident triples produce
non-finite elbows, the C1 bug), the output wrist equals the original target
(the unreachable-target clamp branch can never fire in exact arithmetic,
since `distance(shoulder, wrist) <= l1 + l2` always holds — the triangle
inequality conjunct below), and the output elbow lies at distance
`l1 = distance(shoulder, elbow)` from the shoulder with
`distance(outputElbow, outputWrist) = l2 = distance(elbow, wrist)` exactly:
both bone lengths are preserved. -/
theorem C3_bone_lengths (a b c : ℝ × ℝ) (hab : a ≠ b) (hac : a ≠ c) :
    ∃ e : ℝ × ℝ,
      solveIK (finPt a) (finPt b) (finPt c)
        = some ⟨(some e.1, some e.2), (some c.1, some c.2)⟩ ∧
      rdist a e = rdist a b ∧ rdist e c = rdist b c ∧
      rdist a c ≤ rdist a b + rdist b c := by
  have hl1 := rdist_pos a b hab
  have hd := rdist_pos a c hac
  have hl2 : 0 ≤ rdist b c := Real.sqrt_nonneg _
  have htri := rdist_triangle a b c
  have htri2 : rdist b c ≤ rdist a b + rdist a c := by
    have h := rdist_triangle b a c
    rwa [rdist_symm b a] at h
  have habs := abs_le.mp (rdist_rev_triangle a b c)
  have hDpos : 0 < 2 * rdist a b * rdist a c := by positivity
  have hub : (rdist a b * rdist a b + rdist a c * rdist a c - rdist b c * rdist b c)
      / (2 * rdist a b * rdist a c) ≤ 1 := by
    rw [div_le_one hDpos]
    nlinarith [mul_nonneg
      (by linarith [habs.2] : (0:ℝ) ≤ rdist b c - (rdist a b - rdist a c))
      (by linarith [habs.1] : (0:ℝ) ≤ rdist b c + (rdist a b - rdist a c))]
  have hlb : (-1 : ℝ) ≤ (rdist a b * rdist a b + rdist a c * rdist a c
      - rdist b c * rdist b c) / (2 * rdist a b * rdist a c) := by
    rw [le_div_iff₀ hDpos]
    nlinarith [mul_self_le_mul_self hl2 htri2]
  have hcos1 := Real.cos_arccos hlb hub
  have hzne : (⟨c.1 - a.1, c.2 - a.2⟩ : ℂ) ≠ 0 := by
    intro hz
    apply hac
    rw [Complex.ext_iff] at hz
    simp only [Complex.zero_re, Complex.zero_im] at hz
    ext
    · linarith [hz.1]
    · linarith [hz.2]
  have habseq : Complex.abs ⟨c.1 - a.1, c.2 - a.2⟩ = rdist a c := (rdist_eq_abs a c).symm
  have hc1 : rdist a c * Real.cos (Complex.arg ⟨c.1 - a.1, c.2 - a.2⟩) = c.1 - a.1 := by
    rw [Complex.cos_arg hzne, habseq]
    field_simp
  have hc2 : rdist a c * Real.sin (Complex.arg ⟨c.1 - a.1, c.2 - a.2⟩) = c.2 - a.2 := by
    rw [Complex.sin_arg, habseq]
    field_simp
  have hne0 : ¬ (2 * rdist a b * rdist a c = 0) := hDpos.ne'
  have hdom : ¬ (((rdist a b * rdist a b + rdist a c * rdist a c
      - rdist b c * rdist b c) / (2 * rdist a b * rdist a c)) < -1 ∨
      1 < ((rdist a b * rdist a b + rdist a c * rdist a c - rdist b c * rdist b c)
      / (2 * rdist a b * rdist a c))) := by
    push_neg
    exact ⟨hlb, hub⟩
  have h2dl : 2 * rdist a c * rdist a b * Real.cos (Real.arccos
      ((rdist a b * rdist a b + rdist a c * rdist a c - rdist b c * rdist b c)
        / (2 * rdist a b * rdist a c)))
      = rdist a b * rdist a b + rdist a c * rdist a c - rdist b c * rdist b c := by
    rw [hcos1]
    field_simp
    ring
  refine ⟨(a.1 + rdist a b * Real.cos (Complex.arg ⟨c.1 - a.1, c.2 - a.2⟩
      - Real.arccos ((rdist a b * rdist a b + rdist a c * rdist a c
        - rdist b c * rdist b c) / (2 * rdist a b * rdist a c))),
      a.2 + rdist a b * Real.sin (Complex.arg ⟨c.1 - a.1, c.2 - a.2⟩
      - Real.arccos ((rdist a b * rdist a b + rdist a c * rdist a c
        - rdist b c * rdist b c) / (2 * rdist a b * rdist a c)))),
    ?_, ?_, ?_, htri⟩
  · simp only [solveIK, finPt, distance_finPt, oadd, omul, ogt]
    rw [if_neg (not_lt.mpr htri)]
    dsimp only
    simp only [osub, oadd, omul, oatan2, jsdiv]
    rw [if_neg hne0]
    simp only [jsacos]
    rw [if_neg hdom]
    simp only [osub, ocos, osin, omul, oadd]
  · exact dist_polar a (rdist a b) _ hl1.le
  · exact dist_from_polar a c (rdist a b) (rdist a c) (rdist b c) _ _ hc1 hc2 hl2
      (by linarith [h2dl])

theorem C3_bone_lengths_witness :
    ((0:ℝ), (0:ℝ)) ≠ ((1:ℝ), (0:ℝ)) ∧ ((0:ℝ), (0:ℝ)) ≠ ((1:ℝ), (1:ℝ)) ∧
    (∃ e : ℝ × ℝ,
      solveIK (finPt ((0:ℝ), (0:ℝ))) (finPt ((1:ℝ), (0:ℝ))) (finPt ((1:ℝ), (1:ℝ)))
        = some ⟨(some e.1, some e.2), (some ((1:ℝ), (1:ℝ)).1, some ((1:ℝ), (1:ℝ)).2)⟩ ∧
      rdist ((0:ℝ), (0:ℝ)) e = rdist ((0:ℝ), (0:ℝ)) ((1:ℝ), (0:ℝ)) ∧
      rdist e ((1:ℝ), (1:ℝ)) = rdist ((1:ℝ), (0:ℝ)) ((1:ℝ), (1:ℝ)) ∧
      rdist ((0:ℝ), (0:ℝ)) ((1:ℝ), (1:ℝ))
        ≤ rdist ((0:ℝ), (0:ℝ)) ((1:ℝ), (0:ℝ)) + rdist ((1:ℝ), (0:ℝ)) ((1:ℝ), (1:ℝ))) :=
  ⟨by simp [Prod.ext_iff], by simp [Prod.ext_iff],
    C3_bone_lengths ((0:ℝ), (0:ℝ)) ((1:ℝ), (0:ℝ)) ((1:ℝ), (1:ℝ))
      (by simp [Prod.ext_iff]) (by simp [Prod.ext_iff])⟩

end Mimica
